import Mathlib

/-!
Verification of start.py, the supervisor and updater of the
geyser-connect-container image.  The Python program is shallowly
embedded: JSON values are an inductive type, dictionary subscripting is
modelled in an error monad (KeyError, TypeError, AttributeError), the
persisted version record, the artifact directory and the managed child
process are explicit states, and the external collaborators (HTTP
fetches, hashlib, subprocess.Popen, the wall clock and the shutdown
signal) are parameters of the embedded functions.
-/

namespace GeyserStart

/-- Python values as parsed from the JSON the program reads (API
responses, version.json).  Booleans and floating point numbers do not
occur in the fields the program touches and are not modelled.
Json.null doubles as the Python None that dict.get returns for a
missing key. -/
inductive Json where
  | null : Json
  | num (n : Int) : Json
  | str (s : String) : Json
  | arr (elems : List Json) : Json
  | obj (fields : List (String × Json)) : Json

/-- The Python exceptions the embedded fragments can raise. -/
inductive PyErr where
  | keyError (key : String) : PyErr
  | typeError : PyErr
  | attributeError : PyErr
deriving DecidableEq, Repr

/-- Python comparison a > b on the value shapes that can reach the
comparisons in the checkers: two ints compare by magnitude, two strings
lexicographically, any other combination raises TypeError.  (Python
would also compare two lists elementwise; no list can reach the one
ordered comparison the program performs, on build numbers.) -/
def pyGt : Json → Json → Except PyErr Bool
  | .num a, .num b => .ok (decide (b < a))
  | .str a, .str b => .ok (decide (b < a))
  | _, _ => .error .typeError

/-- Python equality, which never raises, on the modelled values.
Structural; Python compares dicts ignoring insertion order, but no dict
is among the values the program tests for equality (a release tag and
an asset name). -/
def pyEq : Json → Json → Bool
  | .null, .null => true
  | .num a, .num b => a == b
  | .str a, .str b => a == b
  | .arr [], .arr [] => true
  | .arr (a :: as2), .arr (b :: bs) => pyEq a b && pyEq (.arr as2) (.arr bs)
  | .obj [], .obj [] => true
  | .obj ((k1, v1) :: as2), .obj ((k2, v2) :: bs) =>
      k1 == k2 && pyEq v1 v2 && pyEq (.obj as2) (.obj bs)
  | _, _ => false

/-- Python str.lower(), character by character (the compared digests
are ASCII hex strings, on which Python lower() is exactly per-character
lowercasing). -/
def strLower (s : String) : String := ⟨s.data.map Char.toLower⟩

/-- Python str() as it is used inside the download URL f-strings, where
the interpolated values are the version string and the build number.
The renderings of the shapes that cannot appear there are
placeholders. -/
def pyStr : Json → String
  | .null => "None"
  | .num n => toString n
  | .str s => s
  | .arr _ => "<list>"
  | .obj _ => "<dict>"

/-- A parsed JSON object: what json.loads gives for an object and what
json.dumps receives.  Keys of a Python dict are unique; insertion order
is preserved. -/
abbrev VMap := List (String × Json)

/-- The content of version.json as the program can encounter it:
absent, present but not parseable, or a parsed JSON object. -/
inductive VFile where
  | absent : VFile
  | malformed : VFile
  | valid (entries : VMap) : VFile

/-- get_local_versions (start.py lines 268 to 276): an absent or
corrupted version.json reads as the empty mapping. -/
def get_local_versions : VFile → VMap
  | .absent => []
  | .malformed => []
  | .valid m => m

/-- Python dict.get(key, default) on a parsed JSON object. -/
def vget (m : VMap) (k : String) (d : Json) : Json :=
  match m.find? (fun p => p.1 == k) with
  | some p => p.2
  | none => d

/-- Python dict subscripting d[key]: KeyError when the key is missing. -/
def vindex (m : VMap) (k : String) : Except PyErr Json :=
  match m.find? (fun p => p.1 == k) with
  | some p => .ok p.2
  | none => .error (.keyError k)

/-- Python subscripting value[key] on an arbitrary value: anything but a
dict raises TypeError under a string key. -/
def jindex : Json → String → Except PyErr Json
  | .obj m, k => vindex m k
  | _, _ => .error .typeError

/-- Python value.get(key, default) on an arbitrary value: .get on
anything but a dict raises AttributeError. -/
def jgetD : Json → String → Json → Except PyErr Json
  | .obj m, k, d => .ok (vget m k d)
  | _, _, _ => .error .attributeError

/-- Python dict assignment d[key] = value: replaces the one existing
binding in place (keys of a dict are unique), otherwise appends in
insertion order. -/
def vset : VMap → String → Json → VMap
  | [], k, v => [(k, v)]
  | (a, b) :: rest, k, v =>
      if a == k then (k, v) :: rest else (a, b) :: vset rest k v

/-- update_local_version (start.py lines 278 to 282): re-reads the
persisted record, changes the one key, writes the whole mapping back
(the file is valid JSON from then on). -/
def update_local_version (file : VFile) (k : String) (v : Json) : VFile :=
  .valid (vset (get_local_versions file) k v)

/-- One call a checker makes to download_and_verify: the url and the
expected digest passed down.  (In check_mcxbox_broadcast the url comes
straight out of the metadata, so it is a Json value; the build
checkers pass an f-string.) -/
structure DlCall where
  url : Json
  sha : Json

/-- What the network and the disk do for one download_and_verify call,
as seen from a checker: whether the transfer and the read complete all
the way to the digest comparison of start.py line 250, and if so
whether the digest matches and the rename goes through (the True
return). -/
structure DlFate where
  transferred : Bool
  matched : Bool

/-- The outcome oracle for the download_and_verify calls a checker
makes; network and disk behavior are outside the checker. -/
abbrev DlOracle := Json → Json → DlFate

/-- The call a checker makes into download_and_verify (start.py lines
109, 131 and 154 into line 234): requests and I/O failures inside it
are caught there and come back as False, and so does a digest
mismatch; but when the transfer reaches the comparison on line 250,
expected_sha256.lower() raises an AttributeError out of the call if
the expected digest is not a string, because line 261 catches only
RequestException and IOError.  A non-string url never raises there:
requests converts the url with str() and rejects it with a
RequestException, which is caught. -/
def download_call (dl : DlOracle) (url sha : Json) : Except PyErr Bool :=
  if (dl url sha).transferred then
    match sha with
    | .str _ => .ok (dl url sha).matched
    | _ => .error .attributeError
  else
    .ok false

/-- What a checker produces when it does not raise: its boolean result,
the version file after any record write, and the download calls it
made, in order. -/
abbrev CheckResult := Bool × VFile × List DlCall

/-- The download URL built by the f-string in check_geyser_standalone
(start.py line 108). -/
def geyserStandaloneUrl (version build : Json) : String :=
  "https://download.geysermc.org/v2/projects/geyser/versions/" ++ pyStr version
    ++ "/builds/" ++ pyStr build ++ "/downloads/standalone"

/-- The download URL built by the f-string in check_geyser_connect
(start.py line 130). -/
def geyserConnectUrl (version build : Json) : String :=
  "https://download.geysermc.org/v2/projects/geyserconnect/versions/" ++ pyStr version
    ++ "/builds/" ++ pyStr build ++ "/downloads/geyserconnect"

/-- check_geyser_standalone (start.py lines 94 to 114).  The remote
argument is the value of get_api_response: none models a failed fetch
(the function returned None); an empty parsed object is falsy in Python
and is also rejected by the guard on line 100. -/
def check_geyser_standalone (file : VFile) (remote : Option VMap) (dl : DlOracle) :
    Except PyErr CheckResult := do
  let versions := get_local_versions file
  let local_build := vget versions "geyser_standalone" (.num 0)
  match remote with
  | none => return (false, file, [])
  | some r =>
    if r.isEmpty then return (false, file, [])
    else
      let remote_build := vget r "build" (.num 0)
      let gt ← pyGt remote_build local_build
      if gt then
        let version ← vindex r "version"
        let downloads ← vindex r "downloads"
        let standalone ← jindex downloads "standalone"
        let sha ← jindex standalone "sha256"
        let url := Json.str (geyserStandaloneUrl version remote_build)
        let ok ← download_call dl url sha
        if ok then
          return (true, update_local_version file "geyser_standalone" remote_build,
            [⟨url, sha⟩])
        else
          return (false, file, [⟨url, sha⟩])
      else
        return (false, file, [])

/-- check_geyser_connect (start.py lines 116 to 136), identical in shape
to check_geyser_standalone with the geyserconnect key, URL and download
entry. -/
def check_geyser_connect (file : VFile) (remote : Option VMap) (dl : DlOracle) :
    Except PyErr CheckResult := do
  let versions := get_local_versions file
  let local_build := vget versions "geyser_connect" (.num 0)
  match remote with
  | none => return (false, file, [])
  | some r =>
    if r.isEmpty then return (false, file, [])
    else
      let remote_build := vget r "build" (.num 0)
      let gt ← pyGt remote_build local_build
      if gt then
        let version ← vindex r "version"
        let downloads ← vindex r "downloads"
        let geyserconnect ← jindex downloads "geyserconnect"
        let sha ← jindex geyserconnect "sha256"
        let url := Json.str (geyserConnectUrl version remote_build)
        let ok ← download_call dl url sha
        if ok then
          return (true, update_local_version file "geyser_connect" remote_build,
            [⟨url, sha⟩])
        else
          return (false, file, [⟨url, sha⟩])
      else
        return (false, file, [])

/-- Bookkeeping for the embedding: prepend a download call to the call
trace of a checker outcome (an exception keeps its trace-free form). -/
def consCall (call : DlCall) : Except PyErr CheckResult → Except PyErr CheckResult
  | .ok (b, f, calls) => .ok (b, f, call :: calls)
  | .error e => .error e

/-- The for-loop over release assets in check_mcxbox_broadcast
(start.py lines 150 to 156): the first asset named
MCXboxBroadcastExtension.jar whose download verifies wins and the new
tag is recorded; a failed download falls through to the next asset;
falling off the end of the list returns False on line 159.  An asset
whose digest is not a string raises AttributeError at .replace; Python
digest extraction strips every sha256: occurrence, as str.replace
does. -/
def mcxAssetLoop (file : VFile) (remote_version : Json) (dl : DlOracle) :
    List Json → Except PyErr CheckResult
  | [] => .ok (false, file, [])
  | asset :: rest => do
    let name ← jgetD asset "name" .null
    if pyEq name (.str "MCXboxBroadcastExtension.jar") then
      let url ← jindex asset "browser_download_url"
      let digest ← jindex asset "digest"
      match digest with
      | .str s =>
        let sha := Json.str (s.replace "sha256:" "")
        let ok ← download_call dl url sha
        if ok then
          .ok (true, update_local_version file "mcxbox_broadcast" remote_version,
            [⟨url, sha⟩])
        else
          consCall ⟨url, sha⟩ (mcxAssetLoop file remote_version dl rest)
      | _ => .error .attributeError
    else
      mcxAssetLoop file remote_version dl rest

/-- check_mcxbox_broadcast (start.py lines 138 to 159).  The tag is
compared by inequality only; a missing tag_name gives Python None,
modelled as Json.null.  The value under assets is iterated; iteration
of a non-list raises in Python (lists are the only iterable this API
shape delivers; the exact exception class for the other shapes is not
modelled, only that one is raised). -/
def check_mcxbox_broadcast (file : VFile) (remote : Option VMap) (dl : DlOracle) :
    Except PyErr CheckResult := do
  let versions := get_local_versions file
  let local_version := vget versions "mcxbox_broadcast" (.str "0")
  match remote with
  | none => return (false, file, [])
  | some r =>
    if r.isEmpty then return (false, file, [])
    else
      let remote_version := vget r "tag_name" .null
      if !(pyEq remote_version local_version) then
        match vget r "assets" (.arr []) with
        | .arr assets => mcxAssetLoop file remote_version dl assets
        | _ => .error .typeError
      else
        return (false, file, [])

/-- A handle to a spawned child, as subprocess.Popen returns it: the
pid, and whether the OS already reports an exit (poll() not None). -/
structure Proc where
  pid : Nat
  exited : Bool
deriving DecidableEq, Repr

/-- is_server_running (start.py lines 197 to 199): a handle exists and
poll() reports no exit. -/
def is_server_running : Option Proc → Bool
  | none => false
  | some p => !p.exited

/-- The signals stop_server can send. -/
inductive StopAction where
  | sigterm : StopAction
  | sigkill : StopAction
deriving DecidableEq, Repr

/-- stop_server (start.py lines 180 to 195): a no-op unless the server
is running; otherwise SIGTERM, a grace wait of 8 seconds (gracefulExit
tells whether the child exits within it), SIGKILL only on timeout, and
on every stopping path the global handle is cleared. -/
def stop_server (p : Option Proc) (gracefulExit : Bool) :
    Option Proc × List StopAction :=
  if is_server_running p then
    if gracefulExit then (none, [.sigterm])
    else (none, [.sigterm, .sigkill])
  else (p, [])

/-- start_server (start.py lines 164 to 178): returns early with a
diagnostic when the jar is absent; an IOError or OSError from Popen is
caught and logged; only a successful spawn assigns the global handle.
The second component is the log output of the call. -/
def start_server (p : Option Proc) (jarExists : Bool) (spawn : Except Unit Proc) :
    Option Proc × List String :=
  if !jarExists then
    (p, ["Error: Geyser-Standalone.jar not found! Cannot start server."])
  else
    match spawn with
    | .ok child => (some child, ["Starting Geyser-Standalone server..."])
    | .error _ =>
        (p, ["Starting Geyser-Standalone server...",
             "Failed to start server process"])

/-- File contents as byte lists. -/
abbrev Bytes := List Nat

/-- The artifact directory: a flat map from path to byte content. -/
abbrev FS := List (String × Bytes)

def fsRead (fs : FS) (path : String) : Option Bytes :=
  match fs.find? (fun p => p.1 == path) with
  | some p => some p.2
  | none => none

def fsExists (fs : FS) (path : String) : Bool :=
  (fsRead fs path).isSome

/-- open(path, wb) plus the writes: creates or truncates. -/
def fsWrite (fs : FS) (path : String) (content : Bytes) : FS :=
  (path, content) :: fs.filter (fun p => p.1 != path)

/-- Path.unlink. -/
def fsRemove (fs : FS) (path : String) : FS :=
  fs.filter (fun p => p.1 != path)

/-- Path.rename: atomic move that overwrites the target. -/
def fsRename (fs : FS) (src dst : String) : FS :=
  match fsRead fs src with
  | some content => fsWrite (fsRemove fs src) dst content
  | none => fs

/-- Outcome of the streaming GET of start.py lines 241 to 245: either
the full payload reached the temporary file, or the request or an I/O
step failed after some prefix of it (possibly nothing) was written. -/
inductive NetResult where
  | ok (payload : Bytes) : NetResult
  | fail (written : Bytes) : NetResult

/-- The bytes the GET delivered, or the prefix written before the
failure. -/
def netPayload : NetResult → Bytes
  | .ok payload => payload
  | .fail written => written

/-- download_and_verify (start.py lines 234 to 266), parameterized by
the digest function (hashlib.sha256 hex digest) and the network
outcome.  The temporary path destination.with_suffix(suffix + ".tmp")
is the destination path with ".tmp" appended.  The mkdir of the parent
is invisible in this flat-directory model.  The finally block removes
the temporary file whenever it still exists, on success, on checksum
mismatch and on the caught exception path alike. -/
def download_and_verify (sha256hex : Bytes → String) (net : NetResult)
    (destination : String) (expected_sha256 : String) (fs : FS) : Bool × FS :=
  let temp_dest := destination ++ ".tmp"
  match net with
  | .fail written =>
    let fs1 := fsWrite fs temp_dest written
    (false, if fsExists fs1 temp_dest then fsRemove fs1 temp_dest else fs1)
  | .ok payload =>
    let fs1 := fsWrite fs temp_dest payload
    let actual_sha256 := sha256hex ((fsRead fs1 temp_dest).getD [])
    if strLower actual_sha256 != strLower expected_sha256 then
      (false, if fsExists fs1 temp_dest then fsRemove fs1 temp_dest else fs1)
    else
      let fs2 := fsRename fs1 temp_dest destination
      (true, if fsExists fs2 temp_dest then fsRemove fs2 temp_dest else fs2)

/-- What one iteration of the main loop takes from the outside world:
the result of the post-wait run_update_checks call (the result of the
pre-start call on line 47 is discarded by the source), whether the jar
is on disk, the outcome Popen would give, and whether a stopped child
exits within the grace period. -/
structure IterEnv where
  updates : Bool
  jar : Bool
  spawn : Except Unit Proc
  graceful : Bool

/-- The supervisor state the main loop manipulates: the wall clock, the
global process handle, and the time at which SIGTERM or SIGINT arrives
and the handler sets shutdown_event (none: no signal during the run). -/
structure World where
  clock : Nat
  proc : Option Proc
  sigTime : Option Nat

/-- shutdown_event.is_set(): true once the signal time has passed. -/
def shutdownSet (w : World) : Bool :=
  match w.sigTime with
  | some t => decide (t ≤ w.clock)
  | none => false

/-- shutdown_event.wait(timeout): returns immediately when the event is
already set, at the signal time when it falls inside the window, and
after the full timeout otherwise. -/
def eventWait (w : World) (timeout : Nat) : World :=
  match w.sigTime with
  | some t =>
    if t ≤ w.clock then w
    else if t ≤ w.clock + timeout then { w with clock := t }
    else { w with clock := w.clock + timeout }
  | none => { w with clock := w.clock + timeout }

/-- The while loop of main (start.py lines 42 to 74), with fuel
bounding how many iterations are examined (the Python loop runs
unboundedly).  run_update_checks is abstracted to the boolean the
environment provides for the iteration, and a live child does not exit
on its own in this model: the claims proved against it concern the
shutdown path, not child crashes. -/
def mainLoop (env : Nat → IterEnv) : Nat → World → World
  | 0, w => w
  | fuel + 1, w =>
    if shutdownSet w then w
    else
      let e := env fuel
      let w1 := if is_server_running w.proc then w
                else { w with proc := (start_server w.proc e.jar e.spawn).1 }
      if is_server_running w1.proc then
        let w2 := eventWait w1 900
        if shutdownSet w2 then w2
        else if is_server_running w2.proc && e.updates then
          mainLoop env fuel { w2 with proc := (stop_server w2.proc e.graceful).1 }
        else
          mainLoop env fuel w2
      else
        mainLoop env fuel (eventWait w1 30)

/-- The module entry of start.py (lines 284 to 289): main runs the
loop; after it exits, stop_server is called once more,
unconditionally. -/
def runProgram (env : Nat → IterEnv) (fuel : Nat) (w : World)
    (gracefulFinal : Bool) : World :=
  let w1 := mainLoop env fuel w
  { w1 with proc := (stop_server w1.proc gracefulFinal).1 }

/-- Observation of a checker result through the persisted store: the
version file is read back the way the next cycle will read it, so the
distinct on-disk representations of one stored mapping coincide. -/
def obsResult : Except PyErr CheckResult → Except PyErr (Bool × VMap × List DlCall)
  | .error e => .error e
  | .ok (b, f, calls) => .ok (b, get_local_versions f, calls)

/-- The digest lookup of start.py line 107. -/
def standaloneSha (r : VMap) : Except PyErr Json := do
  let downloads ← vindex r "downloads"
  let standalone ← jindex downloads "standalone"
  jindex standalone "sha256"

/-- The digest lookup of start.py line 129. -/
def connectSha (r : VMap) : Except PyErr Json := do
  let downloads ← vindex r "downloads"
  let geyserconnect ← jindex downloads "geyserconnect"
  jindex geyserconnect "sha256"

/-- Well-shapedness of the standalone metadata against the local
record: the version comparison itself is defined (both sides are
numbers, or both strings) and, when it reports a newer build, the
fields the update path dereferences are present and the downloads
digest is a string — a non-string digest would raise AttributeError at
the lower() call of start.py line 250, uncaught inside
download_and_verify. -/
def standaloneMetaOk (file : VFile) (r : VMap) : Bool :=
  match pyGt (vget r "build" (.num 0))
      (vget (get_local_versions file) "geyser_standalone" (.num 0)) with
  | .error _ => false
  | .ok false => true
  | .ok true =>
      (vindex r "version").isOk &&
        (match standaloneSha r with
         | .ok (.str _) => true
         | _ => false)

/-- Well-shapedness of the geyserconnect metadata, as for standalone. -/
def connectMetaOk (file : VFile) (r : VMap) : Bool :=
  match pyGt (vget r "build" (.num 0))
      (vget (get_local_versions file) "geyser_connect" (.num 0)) with
  | .error _ => false
  | .ok false => true
  | .ok true =>
      (vindex r "version").isOk &&
        (match connectSha r with
         | .ok (.str _) => true
         | _ => false)

/-- One release asset is well-shaped when it is an object and, if its
name matches the extension jar, it carries a download URL and a string
digest. -/
def assetOk (a : Json) : Bool :=
  match a with
  | .obj m =>
      if pyEq (vget m "name" .null) (.str "MCXboxBroadcastExtension.jar") then
        (vindex m "browser_download_url").isOk &&
          (match vindex m "digest" with
           | .ok (.str _) => true
           | _ => false)
      else true
  | _ => false

/-- Well-shapedness of the broadcast metadata against the local record:
either the tag is unchanged (the asset loop is not entered) or the
assets value is a list of well-shaped assets. -/
def mcxMetaOk (file : VFile) (r : VMap) : Bool :=
  pyEq (vget r "tag_name" .null)
      (vget (get_local_versions file) "mcxbox_broadcast" (.str "0")) ||
  (match vget r "assets" (.arr []) with
   | .arr assets => assets.all assetOk
   | _ => false)

/-- The remote metadata of the standalone update scenario: build 7 with
a version string and the standalone download digest. -/
def c5remote : VMap :=
  [("build", Json.num 7), ("version", Json.str "2.8.3"),
   ("downloads", Json.obj [("standalone", Json.obj [("sha256", Json.str "0f3a")])])]

/-- The URL the scenario checker builds for that metadata. -/
def c5url : Json := Json.str (geyserStandaloneUrl (Json.str "2.8.3") (Json.num 7))

/-! Helper lemmas about the association-list primitives and the flat
filesystem. -/

theorem find?_vset_ne (m : VMap) (k k2 : String) (v : Json) (h : k2 ≠ k) :
    (vset m k v).find? (fun p => p.1 == k2) = m.find? (fun p => p.1 == k2) := by
  have hkk : (k == k2) = false := beq_eq_false_iff_ne.mpr (Ne.symm h)
  induction m with
  | nil => simp [vset, List.find?, hkk]
  | cons a rest ih =>
    obtain ⟨a1, a2⟩ := a
    by_cases hak : a1 = k
    · subst hak
      simp [vset, List.find?, hkk]
    · have hb : (a1 == k) = false := beq_eq_false_iff_ne.mpr hak
      by_cases hak2 : a1 = k2
      · subst hak2
        simp [vset, List.find?, hb]
      · have hb2 : (a1 == k2) = false := beq_eq_false_iff_ne.mpr hak2
        simp [vset, List.find?, hb, hb2, ih]

theorem vget_vset_self (m : VMap) (k : String) (v : Json) :
    vget (vset m k v) k .null = v := by
  induction m with
  | nil => simp [vset, vget, List.find?]
  | cons a rest ih =>
    obtain ⟨a1, a2⟩ := a
    by_cases hak : a1 = k
    · subst hak
      simp [vset, vget, List.find?]
    · have hb : (a1 == k) = false := beq_eq_false_iff_ne.mpr hak
      simpa [vset, vget, List.find?, hb] using ih

theorem find?_filter_ne (fs : FS) (p q : String) (h : q ≠ p) :
    (fs.filter (fun e => e.1 != p)).find? (fun e => e.1 == q)
      = fs.find? (fun e => e.1 == q) := by
  induction fs with
  | nil => rfl
  | cons a rest ih =>
    obtain ⟨a1, c⟩ := a
    by_cases hap : a1 = p
    · subst hap
      have hq : (a1 == q) = false := beq_eq_false_iff_ne.mpr (Ne.symm h)
      simp [List.filter, List.find?, hq, ih]
    · have hbp : (a1 != p) = true := bne_iff_ne.mpr hap
      by_cases haq : a1 = q
      · subst haq
        simp [List.filter, List.find?, hbp]
      · have hq : (a1 == q) = false := beq_eq_false_iff_ne.mpr haq
        simp [List.filter, List.find?, hbp, hq, ih]

theorem find?_filter_self (fs : FS) (p : String) :
    (fs.filter (fun e => e.1 != p)).find? (fun e => e.1 == p) = none := by
  induction fs with
  | nil => rfl
  | cons a rest ih =>
    obtain ⟨a1, c⟩ := a
    by_cases hap : a1 = p
    · subst hap
      simp [List.filter, ih]
    · have hbp : (a1 != p) = true := bne_iff_ne.mpr hap
      have hq : (a1 == p) = false := beq_eq_false_iff_ne.mpr hap
      simp [List.filter, List.find?, hbp, hq, ih]

theorem fsRead_fsWrite_self (fs : FS) (p : String) (c : Bytes) :
    fsRead (fsWrite fs p c) p = some c := by
  simp [fsRead, fsWrite, List.find?]

theorem fsRead_fsWrite_ne (fs : FS) (p q : String) (c : Bytes) (h : q ≠ p) :
    fsRead (fsWrite fs p c) q = fsRead fs q := by
  have hq : (p == q) = false := beq_eq_false_iff_ne.mpr (Ne.symm h)
  unfold fsRead fsWrite
  simp only [List.find?, hq]
  rw [find?_filter_ne fs p q h]

theorem fsRead_fsRemove_self (fs : FS) (p : String) :
    fsRead (fsRemove fs p) p = none := by
  unfold fsRead fsRemove
  rw [find?_filter_self]

theorem fsRead_fsRemove_ne (fs : FS) (p q : String) (h : q ≠ p) :
    fsRead (fsRemove fs p) q = fsRead fs q := by
  unfold fsRead fsRemove
  rw [find?_filter_ne fs p q h]

theorem fsExists_fsWrite_self (fs : FS) (p : String) (c : Bytes) :
    fsExists (fsWrite fs p c) p = true := by
  simp [fsExists, fsRead_fsWrite_self]

theorem stop_server_fst (p : Option Proc) (g : Bool) :
    (stop_server p g).1 = if is_server_running p then none else p := by
  cases h : is_server_running p <;> cases g <;> simp [stop_server, h]

theorem is_server_running_stop (p : Option Proc) (g : Bool) :
    is_server_running (stop_server p g).1 = false := by
  rw [stop_server_fst]
  cases h : is_server_running p
  · simp [h]
  · simp [h, is_server_running]

theorem stop_server_noop (p : Option Proc) (g : Bool)
    (h : is_server_running p = false) : stop_server p g = (p, []) := by
  unfold stop_server
  rw [h]
  simp

theorem download_call_str (dl : DlOracle) (url : Json) (s : String) :
    download_call dl url (.str s)
      = .ok ((dl url (.str s)).transferred && (dl url (.str s)).matched) := by
  unfold download_call
  cases h : (dl url (Json.str s)).transferred <;> simp [h]

theorem ne_append_tmp (s : String) : s ≠ s ++ ".tmp" := by
  intro h
  have h2 := congrArg String.length h
  have h3 : (".tmp" : String).length = 4 := rfl
  rw [String.length_append, h3] at h2
  omega

/-! The claims. -/

/-- C6: stop() twice in immediate succession produces no error: the
first call clears the handle when a process is running, the second call
is a harmless no-op (it returns the state untouched and sends no
signal), and the observed process state is NoProcess after each of the
two calls. -/
theorem c6_stop_twice_idempotent (p : Option Proc) (g1 g2 : Bool) :
    is_server_running (stop_server p g1).1 = false ∧
    stop_server (stop_server p g1).1 g2 = ((stop_server p g1).1, []) ∧
    is_server_running (stop_server (stop_server p g1).1 g2).1 = false ∧
    (is_server_running p = true → (stop_server p g1).1 = none) := by
  refine ⟨is_server_running_stop p g1,
    stop_server_noop _ g2 (is_server_running_stop p g1), ?_, ?_⟩
  · rw [stop_server_noop _ g2 (is_server_running_stop p g1)]
    exact is_server_running_stop p g1
  · intro hr
    rw [stop_server_fst, hr]
    simp

/-- Witness for C6 at a live handle. -/
theorem c6_witness :
    is_server_running (stop_server (some ⟨4821, false⟩) true).1 = false ∧
    stop_server (stop_server (some ⟨4821, false⟩) true).1 false
      = ((stop_server (some ⟨4821, false⟩) true).1, []) ∧
    (stop_server (some ⟨4821, false⟩) true).1 = none :=
  ⟨(c6_stop_twice_idempotent (some ⟨4821, false⟩) true false).1,
   (c6_stop_twice_idempotent (some ⟨4821, false⟩) true false).2.1,
   (c6_stop_twice_idempotent (some ⟨4821, false⟩) true false).2.2.2 rfl⟩

/-- C7: start() with the server executable missing, or with an OS-level
spawn failure, lets no exception escape, leaves the observed process
state at NoProcess, and logs a diagnostic. -/
theorem c7_start_failure_absorbed (p : Option Proc) (jar : Bool)
    (spawn : Except Unit Proc)
    (hnp : is_server_running p = false)
    (hfail : jar = false ∨ spawn.isOk = false) :
    is_server_running (start_server p jar spawn).1 = false ∧
    (start_server p jar spawn).2 ≠ [] ∧
    (jar = false →
      (start_server p jar spawn).2 =
        ["Error: Geyser-Standalone.jar not found! Cannot start server."]) ∧
    (jar = true → spawn.isOk = false →
      "Failed to start server process" ∈ (start_server p jar spawn).2) := by
  cases jar with
  | false => simp [start_server, hnp]
  | true =>
    cases spawn with
    | ok c => simp [Except.isOk, Except.toBool] at hfail
    | error e => simp [start_server, hnp, Except.isOk, Except.toBool]

/-- Witness for C7: the jar is absent and no process is held. -/
theorem c7_witness :
    is_server_running (start_server none false (Except.error ())).1 = false ∧
    (start_server none false (Except.error ())).2 ≠ [] ∧
    (false = false →
      (start_server none false (Except.error ())).2 =
        ["Error: Geyser-Standalone.jar not found! Cannot start server."]) ∧
    (false = true → (Except.error () : Except Unit Proc).isOk = false →
      "Failed to start server process" ∈ (start_server none false (Except.error ())).2) :=
  c7_start_failure_absorbed none false (Except.error ()) rfl (Or.inl rfl)

/-- C10: update_local_version re-reads the persisted mapping and
rewrites it with only the given key changed: every other key keeps its
previous binding, and the given key reads back as the new value. -/
theorem c10_update_rewrites_only_key (m : VMap) (k k2 : String) (v : Json)
    (h : k2 ≠ k) :
    update_local_version (.valid m) k v = .valid (vset m k v) ∧
    (vset m k v).find? (fun p => p.1 == k2) = m.find? (fun p => p.1 == k2) ∧
    vget (vset m k v) k .null = v :=
  ⟨rfl, find?_vset_ne m k k2 v h, vget_vset_self m k v⟩

/-- Witness for C10: bumping the standalone build leaves the connect
build untouched. -/
theorem c10_witness :
    update_local_version (.valid [("geyser_connect", Json.num 3)])
        "geyser_standalone" (Json.num 7)
      = .valid (vset [("geyser_connect", Json.num 3)] "geyser_standalone" (Json.num 7)) ∧
    (vset [("geyser_connect", Json.num 3)] "geyser_standalone" (Json.num 7)).find?
        (fun p => p.1 == "geyser_connect")
      = [("geyser_connect", Json.num 3)].find? (fun p => p.1 == "geyser_connect") ∧
    vget (vset [("geyser_connect", Json.num 3)] "geyser_standalone" (Json.num 7))
        "geyser_standalone" .null = Json.num 7 :=
  c10_update_rewrites_only_key [("geyser_connect", Json.num 3)]
    "geyser_standalone" "geyser_connect" (Json.num 7) (by decide)

theorem fsRename_of_read (fs : FS) (src dst : String) (c : Bytes)
    (h : fsRead fs src = some c) :
    fsRename fs src dst = fsWrite (fsRemove fs src) dst c := by
  unfold fsRename
  rw [h]

/-- C2: a download whose payload digest does not match the expected one
under case-insensitive comparison, and likewise a transfer or write
that fails part way, makes download_and_verify return false, leaves the
destination content (or absence) unchanged, and leaves no temporary
file on disk. -/
theorem c2_mismatch_leaves_no_trace (sha256hex : Bytes → String) (net : NetResult)
    (destination expected_sha256 : String) (fs : FS)
    (hbad : (∃ w, net = .fail w) ∨
      (∃ payload, net = .ok payload ∧
        strLower (sha256hex payload) ≠ strLower expected_sha256)) :
    (download_and_verify sha256hex net destination expected_sha256 fs).1 = false ∧
    fsRead (download_and_verify sha256hex net destination expected_sha256 fs).2
      destination = fsRead fs destination ∧
    fsExists (download_and_verify sha256hex net destination expected_sha256 fs).2
      (destination ++ ".tmp") = false := by
  have hne : destination ≠ destination ++ ".tmp" := ne_append_tmp destination
  rcases hbad with ⟨w, hw⟩ | ⟨payload, hp, hmis⟩
  · subst hw
    simp only [download_and_verify, fsExists_fsWrite_self, if_true]
    refine ⟨trivial, ?_, ?_⟩
    · rw [fsRead_fsRemove_ne _ _ _ hne, fsRead_fsWrite_ne _ _ _ _ hne]
    · simp [fsExists, fsRead_fsRemove_self]
  · subst hp
    have hb : (strLower (sha256hex payload) != strLower expected_sha256) = true :=
      bne_iff_ne.mpr hmis
    simp only [download_and_verify, fsRead_fsWrite_self, Option.getD_some, hb,
      if_true, fsExists_fsWrite_self]
    refine ⟨trivial, ?_, ?_⟩
    · rw [fsRead_fsRemove_ne _ _ _ hne, fsRead_fsWrite_ne _ _ _ _ hne]
    · simp [fsExists, fsRead_fsRemove_self]

/-- Witness for C2 at a concrete mismatching download into an empty
directory. -/
theorem c2_witness :
    (download_and_verify (fun _ => "aa") (.ok [1, 2]) "f.jar" "bb" []).1 = false ∧
    fsRead (download_and_verify (fun _ => "aa") (.ok [1, 2]) "f.jar" "bb" []).2 "f.jar"
      = fsRead [] "f.jar" ∧
    fsExists (download_and_verify (fun _ => "aa") (.ok [1, 2]) "f.jar" "bb" []).2
      ("f.jar" ++ ".tmp") = false :=
  c2_mismatch_leaves_no_trace (fun _ => "aa") (.ok [1, 2]) "f.jar" "bb" []
    (Or.inr ⟨[1, 2], rfl, by decide⟩)

/-- C3: when download_and_verify returns true, the transfer completed
in full, the destination file now holds exactly the downloaded
payload, that payload digests to the expected value under
case-insensitive comparison, and no temporary file remains. -/
theorem c3_success_verified (sha256hex : Bytes → String) (net : NetResult)
    (destination expected_sha256 : String) (fs : FS)
    (hs : (download_and_verify sha256hex net destination expected_sha256 fs).1 = true) :
    net = .ok (netPayload net) ∧
    fsRead (download_and_verify sha256hex net destination expected_sha256 fs).2
      destination = some (netPayload net) ∧
    strLower (sha256hex (netPayload net)) = strLower expected_sha256 ∧
    fsExists (download_and_verify sha256hex net destination expected_sha256 fs).2
      (destination ++ ".tmp") = false := by
  have hne : destination ≠ destination ++ ".tmp" := ne_append_tmp destination
  cases net with
  | fail w =>
    exfalso
    simp [download_and_verify] at hs
  | ok payload =>
    by_cases hmis : strLower (sha256hex payload) = strLower expected_sha256
    case neg =>
      exfalso
      have hb : (strLower (sha256hex payload) != strLower expected_sha256) = true :=
        bne_iff_ne.mpr hmis
      simp [download_and_verify, fsRead_fsWrite_self, hb] at hs
    case pos =>
      have hb : (strLower (sha256hex payload) != strLower expected_sha256) = false := by
        simp [hmis]
      have hex2 : fsExists (fsWrite (fsRemove (fsWrite fs (destination ++ ".tmp") payload)
          (destination ++ ".tmp")) destination payload) (destination ++ ".tmp") = false := by
        unfold fsExists
        rw [fsRead_fsWrite_ne _ _ _ _ (Ne.symm hne), fsRead_fsRemove_self]
        rfl
      have key : download_and_verify sha256hex (.ok payload) destination expected_sha256 fs
          = (true, fsWrite (fsRemove (fsWrite fs (destination ++ ".tmp") payload)
              (destination ++ ".tmp")) destination payload) := by
        simp only [download_and_verify, fsRead_fsWrite_self, Option.getD_some, hb,
          Bool.false_eq_true, if_false,
          fsRename_of_read _ _ _ _ (fsRead_fsWrite_self fs (destination ++ ".tmp") payload),
          hex2]
      rw [key]
      exact ⟨rfl, fsRead_fsWrite_self _ _ _, hmis, hex2⟩

/-- Witness for C3 at a download whose digest matches up to case. -/
theorem c3_witness :
    NetResult.ok [7] = .ok (netPayload (.ok [7])) ∧
    fsRead (download_and_verify (fun _ => "AB") (.ok [7]) "g.jar" "ab" []).2 "g.jar"
      = some (netPayload (.ok [7])) ∧
    strLower "AB" = strLower "ab" ∧
    fsExists (download_and_verify (fun _ => "AB") (.ok [7]) "g.jar" "ab" []).2
      ("g.jar" ++ ".tmp") = false :=
  c3_success_verified (fun _ => "AB") (.ok [7]) "g.jar" "ab" [] (by decide)

/-- C4: when the remote version is not newer (remote build at most the
local build for the two build-number artifacts; remote tag equal to the
local tag for the tag artifact), the checker returns false, makes no
download call, and leaves the version file untouched. -/
theorem c4_not_newer_no_effects (file : VFile) (r : VMap) (dl : DlOracle) (lb rb : Int) :
    (vget (get_local_versions file) "geyser_standalone" (.num 0) = .num lb →
      vget r "build" (.num 0) = .num rb → rb ≤ lb →
      check_geyser_standalone file (some r) dl = .ok (false, file, [])) ∧
    (vget (get_local_versions file) "geyser_connect" (.num 0) = .num lb →
      vget r "build" (.num 0) = .num rb → rb ≤ lb →
      check_geyser_connect file (some r) dl = .ok (false, file, [])) ∧
    (pyEq (vget r "tag_name" .null)
        (vget (get_local_versions file) "mcxbox_broadcast" (.str "0")) = true →
      check_mcxbox_broadcast file (some r) dl = .ok (false, file, [])) := by
  refine ⟨?_, ?_, ?_⟩
  · intro h1 h2 h3
    have hgt : pyGt (vget r "build" (Json.num 0))
        (vget (get_local_versions file) "geyser_standalone" (Json.num 0)) = .ok false := by
      rw [h1, h2]
      simp only [pyGt, Except.ok.injEq, decide_eq_false_iff_not, not_lt]
      exact h3
    by_cases hre : r.isEmpty
    · simp [check_geyser_standalone, hre, pure, Except.pure]
    · simp [check_geyser_standalone, hre, hgt, Bind.bind, Except.bind, pure, Except.pure]
  · intro h1 h2 h3
    have hgt : pyGt (vget r "build" (Json.num 0))
        (vget (get_local_versions file) "geyser_connect" (Json.num 0)) = .ok false := by
      rw [h1, h2]
      simp only [pyGt, Except.ok.injEq, decide_eq_false_iff_not, not_lt]
      exact h3
    by_cases hre : r.isEmpty
    · simp [check_geyser_connect, hre, pure, Except.pure]
    · simp [check_geyser_connect, hre, hgt, Bind.bind, Except.bind, pure, Except.pure]
  · intro h1
    by_cases hre : r.isEmpty
    · simp [check_mcxbox_broadcast, hre, pure, Except.pure]
    · simp [check_mcxbox_broadcast, hre, h1, pure, Except.pure]

/-- Witness for C4: local record at build 5 and tag v1.0, remote at the
same build and tag. -/
theorem c4_witness :
    check_geyser_standalone
        (.valid [("geyser_standalone", Json.num 5), ("geyser_connect", Json.num 5),
          ("mcxbox_broadcast", Json.str "v1.0")])
        (some [("build", Json.num 5), ("tag_name", Json.str "v1.0")]) (fun _ _ => ⟨false, false⟩)
      = .ok (false, .valid [("geyser_standalone", Json.num 5), ("geyser_connect", Json.num 5),
          ("mcxbox_broadcast", Json.str "v1.0")], []) ∧
    check_geyser_connect
        (.valid [("geyser_standalone", Json.num 5), ("geyser_connect", Json.num 5),
          ("mcxbox_broadcast", Json.str "v1.0")])
        (some [("build", Json.num 5), ("tag_name", Json.str "v1.0")]) (fun _ _ => ⟨false, false⟩)
      = .ok (false, .valid [("geyser_standalone", Json.num 5), ("geyser_connect", Json.num 5),
          ("mcxbox_broadcast", Json.str "v1.0")], []) ∧
    check_mcxbox_broadcast
        (.valid [("geyser_standalone", Json.num 5), ("geyser_connect", Json.num 5),
          ("mcxbox_broadcast", Json.str "v1.0")])
        (some [("build", Json.num 5), ("tag_name", Json.str "v1.0")]) (fun _ _ => ⟨false, false⟩)
      = .ok (false, .valid [("geyser_standalone", Json.num 5), ("geyser_connect", Json.num 5),
          ("mcxbox_broadcast", Json.str "v1.0")], []) :=
  ⟨(c4_not_newer_no_effects _ _ _ 5 5).1 rfl rfl (by norm_num),
   (c4_not_newer_no_effects _ _ _ 5 5).2.1 rfl rfl (by norm_num),
   (c4_not_newer_no_effects _ _ _ 5 5).2.2 (by simp [vget, List.find?, pyEq,
     get_local_versions])⟩

/-- C5: with the local record at standalone build 5 and remote build 7
whose download verifies, check_geyser_standalone returns true and the
record afterwards maps geyser_standalone to 7. -/
theorem c5_standalone_updates (dl : DlOracle)
    (hdl : dl c5url (Json.str "0f3a") = ⟨true, true⟩) :
    check_geyser_standalone (.valid [("geyser_standalone", Json.num 5)])
        (some c5remote) dl
      = .ok (true, .valid [("geyser_standalone", Json.num 7)],
          [⟨c5url, Json.str "0f3a"⟩]) := by
  have hdl2 : dl (Json.str (geyserStandaloneUrl (Json.str "2.8.3") (Json.num 7)))
      (Json.str "0f3a") = ⟨true, true⟩ := hdl
  simp [check_geyser_standalone, c5remote, c5url, vget, vindex, jindex, List.find?,
    pyGt, update_local_version, get_local_versions, vset, Bind.bind, Except.bind,
    pure, Except.pure, download_call, hdl2]

/-- Witness for C5 with an oracle that verifies the download. -/
theorem c5_witness :
    check_geyser_standalone (.valid [("geyser_standalone", Json.num 5)])
        (some c5remote) (fun _ _ => ⟨true, true⟩)
      = .ok (true, .valid [("geyser_standalone", Json.num 7)],
          [⟨c5url, Json.str "0f3a"⟩]) :=
  c5_standalone_updates (fun _ _ => ⟨true, true⟩) rfl

theorem check_std_isOk_of_shape (file : VFile) (r : VMap) (dl : DlOracle)
    (h : standaloneMetaOk file r = true) :
    (check_geyser_standalone file (some r) dl).isOk = true := by
  by_cases hre : r.isEmpty
  · simp [check_geyser_standalone, hre, pure, Except.pure, Except.isOk, Except.toBool]
  · unfold standaloneMetaOk at h
    cases hgt : pyGt (vget r "build" (Json.num 0))
        (vget (get_local_versions file) "geyser_standalone" (Json.num 0)) with
    | error e => rw [hgt] at h; simp at h
    | ok b =>
      rw [hgt] at h
      cases b with
      | false =>
        simp [check_geyser_standalone, hre, hgt, Bind.bind, Except.bind, pure,
          Except.pure, Except.isOk, Except.toBool]
      | true =>
        simp only [Bool.and_eq_true] at h
        obtain ⟨h1, h2⟩ := h
        cases hv : vindex r "version" with
        | error e => rw [hv] at h1; simp [Except.isOk, Except.toBool] at h1
        | ok v =>
          cases hsha : standaloneSha r with
          | error e => rw [hsha] at h2; simp at h2
          | ok dg =>
            rw [hsha] at h2
            cases dg with
            | null => simp at h2
            | num n => simp at h2
            | arr l => simp at h2
            | obj mm => simp at h2
            | str s =>
              unfold standaloneSha at hsha
              cases hd : vindex r "downloads" with
              | error e => rw [hd] at hsha; simp [Bind.bind, Except.bind] at hsha
              | ok d =>
                rw [hd] at hsha
                have hsha2 : (do
                      let standalone ← jindex d "standalone"
                      jindex standalone "sha256" : Except PyErr Json)
                    = Except.ok (Json.str s) := hsha
                cases hsd : jindex d "standalone" with
                | error e =>
                  rw [hsd] at hsha2
                  simp [Bind.bind, Except.bind] at hsha2
                | ok sobj =>
                  rw [hsd] at hsha2
                  have hsh : jindex sobj "sha256" = Except.ok (Json.str s) := hsha2
                  cases hb : ((dl (Json.str (geyserStandaloneUrl v
                        (vget r "build" (Json.num 0)))) (Json.str s)).transferred &&
                      (dl (Json.str (geyserStandaloneUrl v
                        (vget r "build" (Json.num 0)))) (Json.str s)).matched) <;>
                    simp [check_geyser_standalone, hre, hgt, hv, hd, hsd, hsh,
                      download_call_str, hb, Bind.bind, Except.bind, pure,
                      Except.pure, Except.isOk, Except.toBool]

theorem check_connect_isOk_of_shape (file : VFile) (r : VMap) (dl : DlOracle)
    (h : connectMetaOk file r = true) :
    (check_geyser_connect file (some r) dl).isOk = true := by
  by_cases hre : r.isEmpty
  · simp [check_geyser_connect, hre, pure, Except.pure, Except.isOk, Except.toBool]
  · unfold connectMetaOk at h
    cases hgt : pyGt (vget r "build" (Json.num 0))
        (vget (get_local_versions file) "geyser_connect" (Json.num 0)) with
    | error e => rw [hgt] at h; simp at h
    | ok b =>
      rw [hgt] at h
      cases b with
      | false =>
        simp [check_geyser_connect, hre, hgt, Bind.bind, Except.bind, pure,
          Except.pure, Except.isOk, Except.toBool]
      | true =>
        simp only [Bool.and_eq_true] at h
        obtain ⟨h1, h2⟩ := h
        cases hv : vindex r "version" with
        | error e => rw [hv] at h1; simp [Except.isOk, Except.toBool] at h1
        | ok v =>
          cases hsha : connectSha r with
          | error e => rw [hsha] at h2; simp at h2
          | ok dg =>
            rw [hsha] at h2
            cases dg with
            | null => simp at h2
            | num n => simp at h2
            | arr l => simp at h2
            | obj mm => simp at h2
            | str s =>
              unfold connectSha at hsha
              cases hd : vindex r "downloads" with
              | error e => rw [hd] at hsha; simp [Bind.bind, Except.bind] at hsha
              | ok d =>
                rw [hd] at hsha
                have hsha2 : (do
                      let geyserconnect ← jindex d "geyserconnect"
                      jindex geyserconnect "sha256" : Except PyErr Json)
                    = Except.ok (Json.str s) := hsha
                cases hsd : jindex d "geyserconnect" with
                | error e =>
                  rw [hsd] at hsha2
                  simp [Bind.bind, Except.bind] at hsha2
                | ok sobj =>
                  rw [hsd] at hsha2
                  have hsh : jindex sobj "sha256" = Except.ok (Json.str s) := hsha2
                  cases hb : ((dl (Json.str (geyserConnectUrl v
                        (vget r "build" (Json.num 0)))) (Json.str s)).transferred &&
                      (dl (Json.str (geyserConnectUrl v
                        (vget r "build" (Json.num 0)))) (Json.str s)).matched) <;>
                    simp [check_geyser_connect, hre, hgt, hv, hd, hsd, hsh,
                      download_call_str, hb, Bind.bind, Except.bind, pure,
                      Except.pure, Except.isOk, Except.toBool]

theorem mcxAssetLoop_isOk (file : VFile) (rv : Json) (dl : DlOracle) :
    ∀ assets : List Json, assets.all assetOk = true →
      (mcxAssetLoop file rv dl assets).isOk = true := by
  intro assets
  induction assets with
  | nil =>
    intro h
    simp [mcxAssetLoop, Except.isOk, Except.toBool]
  | cons a rest ih =>
    intro h
    simp only [List.all_cons, Bool.and_eq_true] at h
    obtain ⟨ha, hrest⟩ := h
    cases a with
    | null => simp [assetOk] at ha
    | num n => simp [assetOk] at ha
    | str s => simp [assetOk] at ha
    | arr l => simp [assetOk] at ha
    | obj m =>
      unfold assetOk at ha
      have ha2 : (if pyEq (vget m "name" Json.null)
            (Json.str "MCXboxBroadcastExtension.jar") = true then
          (vindex m "browser_download_url").isOk &&
            (match vindex m "digest" with
             | .ok (.str _) => true
             | _ => false)
        else true) = true := ha
      unfold mcxAssetLoop
      simp only [jgetD, Bind.bind, Except.bind]
      by_cases hname : pyEq (vget m "name" Json.null)
          (Json.str "MCXboxBroadcastExtension.jar") = true
      · rw [if_pos hname]
        rw [if_pos hname] at ha2
        simp only [Bool.and_eq_true] at ha2
        obtain ⟨hu, hd⟩ := ha2
        cases hurl : vindex m "browser_download_url" with
        | error e => rw [hurl] at hu; simp [Except.isOk, Except.toBool] at hu
        | ok url =>
          cases hdig : vindex m "digest" with
          | error e => rw [hdig] at hd; simp at hd
          | ok dg =>
            rw [hdig] at hd
            cases dg with
            | null => simp at hd
            | num n => simp at hd
            | arr l => simp at hd
            | obj mm => simp at hd
            | str s =>
              simp only [jindex, hurl, hdig, Bind.bind, Except.bind,
                download_call_str]
              cases hb : ((dl url (Json.str (s.replace "sha256:" ""))).transferred &&
                  (dl url (Json.str (s.replace "sha256:" ""))).matched) with
              | true => simp [hb, Except.isOk, Except.toBool]
              | false =>
                cases hrec : mcxAssetLoop file rv dl rest with
                | error e =>
                  exfalso
                  have := ih hrest
                  rw [hrec] at this
                  simp [Except.isOk, Except.toBool] at this
                | ok t =>
                  obtain ⟨b, f, calls⟩ := t
                  simp [hb, hrec, consCall, Except.isOk, Except.toBool]
      · rw [if_neg hname]
        exact ih hrest

theorem check_mcx_isOk_of_shape (file : VFile) (r : VMap) (dl : DlOracle)
    (h : mcxMetaOk file r = true) :
    (check_mcxbox_broadcast file (some r) dl).isOk = true := by
  by_cases hre : r.isEmpty
  · simp [check_mcxbox_broadcast, hre, pure, Except.pure, Except.isOk, Except.toBool]
  · unfold mcxMetaOk at h
    by_cases heq : pyEq (vget r "tag_name" Json.null)
        (vget (get_local_versions file) "mcxbox_broadcast" (Json.str "0")) = true
    · simp [check_mcxbox_broadcast, hre, heq, pure, Except.pure, Except.isOk,
        Except.toBool]
    · simp only [Bool.or_eq_true] at h
      rcases h with h | h
      · exact absurd h heq
      · have hpe : pyEq (vget r "tag_name" Json.null)
            (vget (get_local_versions file) "mcxbox_broadcast" (Json.str "0")) = false :=
          Bool.eq_false_iff.mpr heq
        cases hassets : vget r "assets" (Json.arr []) with
        | null => rw [hassets] at h; simp at h
        | num n => rw [hassets] at h; simp at h
        | str s => rw [hassets] at h; simp at h
        | obj mm => rw [hassets] at h; simp at h
        | arr assets =>
          rw [hassets] at h
          have hloop := mcxAssetLoop_isOk file (vget r "tag_name" Json.null) dl assets h
          simp [check_mcxbox_broadcast, hre, hpe, hassets, hloop]

/-- C1 counterexample: remote metadata that announces a newer build but
lacks the version field makes check_geyser_standalone raise a KeyError
(escaping to the main loop catch-all) instead of returning false, so
the checkers are not exception-free for every remote metadata value. -/
theorem c1_counterexample :
    check_geyser_standalone (.valid []) (some [("build", Json.num 7)])
        (fun _ _ => ⟨false, false⟩) = .error (.keyError "version") := by rfl

/-- C1 as amended: each checker absorbs a failed metadata fetch,
returning false with no download call and no record write; and for
remote metadata that is well shaped for its artifact — the version
comparison is defined, the fields the update path dereferences are
present, and the expected digest it hands to download_and_verify is a
string — the checker never raises: a failed download, a non-newer
version or an asset list without a matching name all come back as an
ordinary boolean.  Outside that shape an exception escapes the checker
to the main loop catch-all: a missing field raises a KeyError (the
counterexample), and a digest field that is present but not a string
raises an AttributeError from expected_sha256.lower() on start.py line
250 once the transfer completes, since line 261 catches only
RequestException and IOError (the last conjunct). -/
theorem c1_checkers_absorb_within_shape (file : VFile) (r : VMap) (dl : DlOracle) :
    (check_geyser_standalone file none dl = .ok (false, file, []) ∧
     check_geyser_connect file none dl = .ok (false, file, []) ∧
     check_mcxbox_broadcast file none dl = .ok (false, file, [])) ∧
    ((standaloneMetaOk file r = true →
        (check_geyser_standalone file (some r) dl).isOk = true) ∧
     (connectMetaOk file r = true →
        (check_geyser_connect file (some r) dl).isOk = true) ∧
     (mcxMetaOk file r = true →
        (check_mcxbox_broadcast file (some r) dl).isOk = true)) ∧
    check_geyser_standalone (.valid [])
      (some [("build", Json.num 7), ("version", Json.str "2.8.3"),
        ("downloads", Json.obj [("standalone", Json.obj [("sha256", Json.num 3)])])])
      (fun _ _ => ⟨true, true⟩) = .error .attributeError :=
  ⟨⟨rfl, rfl, rfl⟩,
   ⟨check_std_isOk_of_shape file r dl, check_connect_isOk_of_shape file r dl,
    check_mcx_isOk_of_shape file r dl⟩,
   rfl⟩

/-- Witness for the amended C1 at an absent record and small well-shaped
metadata. -/
theorem c1_witness :
    (check_geyser_standalone .absent none (fun _ _ => ⟨false, false⟩)
        = .ok (false, .absent, []) ∧
     check_geyser_connect .absent none (fun _ _ => ⟨false, false⟩)
        = .ok (false, .absent, []) ∧
     check_mcxbox_broadcast .absent none (fun _ _ => ⟨false, false⟩)
        = .ok (false, .absent, [])) ∧
    ((check_geyser_standalone .absent
        (some [("build", Json.num 0), ("tag_name", Json.str "0")])
        (fun _ _ => ⟨false, false⟩)).isOk = true ∧
     (check_geyser_connect .absent
        (some [("build", Json.num 0), ("tag_name", Json.str "0")])
        (fun _ _ => ⟨false, false⟩)).isOk = true ∧
     (check_mcxbox_broadcast .absent
        (some [("build", Json.num 0), ("tag_name", Json.str "0")])
        (fun _ _ => ⟨false, false⟩)).isOk = true) :=
  ⟨(c1_checkers_absorb_within_shape .absent
      [("build", Json.num 0), ("tag_name", Json.str "0")] (fun _ _ => ⟨false, false⟩)).1,
   ⟨(c1_checkers_absorb_within_shape .absent
      [("build", Json.num 0), ("tag_name", Json.str "0")] (fun _ _ => ⟨false, false⟩)).2.1.1 rfl,
    (c1_checkers_absorb_within_shape .absent
      [("build", Json.num 0), ("tag_name", Json.str "0")] (fun _ _ => ⟨false, false⟩)).2.1.2.1 rfl,
    (c1_checkers_absorb_within_shape .absent
      [("build", Json.num 0), ("tag_name", Json.str "0")] (fun _ _ => ⟨false, false⟩)).2.1.2.2
      (by simp [mcxMetaOk, vget, List.find?, get_local_versions, pyEq])⟩⟩

theorem check_std_obs_congr (file file2 : VFile) (remote : Option VMap)
    (dl : DlOracle) (h : get_local_versions file = get_local_versions file2) :
    obsResult (check_geyser_standalone file remote dl)
      = obsResult (check_geyser_standalone file2 remote dl) := by
  cases remote with
  | none => simp [check_geyser_standalone, obsResult, h, pure, Except.pure]
  | some r =>
    simp only [check_geyser_standalone, update_local_version, h]
    cases hre : r.isEmpty with
    | true => simp [hre, obsResult, h, pure, Except.pure]
    | false =>
      simp only [hre, Bool.false_eq_true, if_false]
      cases hgt : pyGt (vget r "build" (Json.num 0))
          (vget (get_local_versions file2) "geyser_standalone" (Json.num 0)) with
      | error e => simp [hgt, Bind.bind, Except.bind, obsResult]
      | ok b =>
        cases b with
        | false => simp [hgt, Bind.bind, Except.bind, obsResult, h, pure, Except.pure]
        | true =>
          simp only [hgt, Bind.bind, Except.bind, if_true]
          cases hv : vindex r "version" with
          | error e => simp [hv, obsResult]
          | ok v =>
            simp only [hv]
            cases hd : vindex r "downloads" with
            | error e => simp [hd, obsResult]
            | ok dv =>
              simp only [hd]
              cases hsd : jindex dv "standalone" with
              | error e => simp [hsd, obsResult]
              | ok sobj =>
                simp only [hsd]
                cases hsh : jindex sobj "sha256" with
                | error e => simp [hsh, obsResult]
                | ok sha =>
                  simp only [hsh]
                  cases hdc : download_call dl (Json.str (geyserStandaloneUrl v
                      (vget r "build" (Json.num 0)))) sha with
                  | error e => simp [hdc, Bind.bind, Except.bind, obsResult]
                  | ok okb =>
                    cases okb <;>
                      simp [hdc, Bind.bind, Except.bind, obsResult, h, pure,
                        Except.pure]

theorem check_connect_obs_congr (file file2 : VFile) (remote : Option VMap)
    (dl : DlOracle) (h : get_local_versions file = get_local_versions file2) :
    obsResult (check_geyser_connect file remote dl)
      = obsResult (check_geyser_connect file2 remote dl) := by
  cases remote with
  | none => simp [check_geyser_connect, obsResult, h, pure, Except.pure]
  | some r =>
    simp only [check_geyser_connect, update_local_version, h]
    cases hre : r.isEmpty with
    | true => simp [hre, obsResult, h, pure, Except.pure]
    | false =>
      simp only [hre, Bool.false_eq_true, if_false]
      cases hgt : pyGt (vget r "build" (Json.num 0))
          (vget (get_local_versions file2) "geyser_connect" (Json.num 0)) with
      | error e => simp [hgt, Bind.bind, Except.bind, obsResult]
      | ok b =>
        cases b with
        | false => simp [hgt, Bind.bind, Except.bind, obsResult, h, pure, Except.pure]
        | true =>
          simp only [hgt, Bind.bind, Except.bind, if_true]
          cases hv : vindex r "version" with
          | error e => simp [hv, obsResult]
          | ok v =>
            simp only [hv]
            cases hd : vindex r "downloads" with
            | error e => simp [hd, obsResult]
            | ok dv =>
              simp only [hd]
              cases hsd : jindex dv "geyserconnect" with
              | error e => simp [hsd, obsResult]
              | ok sobj =>
                simp only [hsd]
                cases hsh : jindex sobj "sha256" with
                | error e => simp [hsh, obsResult]
                | ok sha =>
                  simp only [hsh]
                  cases hdc : download_call dl (Json.str (geyserConnectUrl v
                      (vget r "build" (Json.num 0)))) sha with
                  | error e => simp [hdc, Bind.bind, Except.bind, obsResult]
                  | ok okb =>
                    cases okb <;>
                      simp [hdc, Bind.bind, Except.bind, obsResult, h, pure,
                        Except.pure]

theorem obsResult_consCall (call : DlCall) (x y : Except PyErr CheckResult)
    (hxy : obsResult x = obsResult y) :
    obsResult (consCall call x) = obsResult (consCall call y) := by
  cases x with
  | error e =>
    cases y with
    | error e2 =>
      simp only [obsResult, Except.error.injEq] at hxy
      simp [consCall, obsResult, hxy]
    | ok t =>
      obtain ⟨b, f, c⟩ := t
      simp [obsResult] at hxy
  | ok t =>
    obtain ⟨b, f, c⟩ := t
    cases y with
    | error e2 => simp [obsResult] at hxy
    | ok t2 =>
      obtain ⟨b2, f2, c2⟩ := t2
      simp only [obsResult, Except.ok.injEq, Prod.mk.injEq] at hxy
      obtain ⟨hb, hf, hc⟩ := hxy
      simp [consCall, obsResult, hb, hf, hc]

theorem mcxAssetLoop_obs_congr (file file2 : VFile) (rv : Json) (dl : DlOracle)
    (h : get_local_versions file = get_local_versions file2) :
    ∀ assets : List Json,
      obsResult (mcxAssetLoop file rv dl assets)
        = obsResult (mcxAssetLoop file2 rv dl assets) := by
  intro assets
  induction assets with
  | nil => simp [mcxAssetLoop, obsResult, h]
  | cons a rest ih =>
    unfold mcxAssetLoop
    simp only [update_local_version, h]
    cases hname : jgetD a "name" Json.null with
    | error e => simp [hname, Bind.bind, Except.bind, obsResult]
    | ok name =>
      simp only [hname, Bind.bind, Except.bind]
      by_cases heq : pyEq name (Json.str "MCXboxBroadcastExtension.jar") = true
      · rw [if_pos heq, if_pos heq]
        cases hurl : jindex a "browser_download_url" with
        | error e => simp [hurl, Bind.bind, Except.bind, obsResult]
        | ok url =>
          simp only [hurl]
          cases hdig : jindex a "digest" with
          | error e => simp [hdig, obsResult]
          | ok dg =>
            simp only [hdig]
            cases dg with
            | null => simp [obsResult]
            | num n => simp [obsResult]
            | arr l => simp [obsResult]
            | obj mm => simp [obsResult]
            | str s =>
              simp only [download_call_str, Bind.bind, Except.bind]
              cases hb : ((dl url (Json.str (s.replace "sha256:" ""))).transferred &&
                  (dl url (Json.str (s.replace "sha256:" ""))).matched) with
              | true => simp [hb, obsResult, h]
              | false =>
                simp only [hb, Bool.false_eq_true, if_false]
                exact obsResult_consCall ⟨url, Json.str (s.replace "sha256:" "")⟩
                  (mcxAssetLoop file rv dl rest) (mcxAssetLoop file2 rv dl rest) ih
      · rw [if_neg heq, if_neg heq]
        exact ih

theorem check_mcx_obs_congr (file file2 : VFile) (remote : Option VMap)
    (dl : DlOracle) (h : get_local_versions file = get_local_versions file2) :
    obsResult (check_mcxbox_broadcast file remote dl)
      = obsResult (check_mcxbox_broadcast file2 remote dl) := by
  cases remote with
  | none => simp [check_mcxbox_broadcast, obsResult, h, pure, Except.pure]
  | some r =>
    simp only [check_mcxbox_broadcast, h]
    cases hre : r.isEmpty with
    | true => simp [hre, obsResult, h, pure, Except.pure]
    | false =>
      simp only [hre, Bool.false_eq_true, if_false]
      by_cases hpe : (!pyEq (vget r "tag_name" Json.null)
          (vget (get_local_versions file2) "mcxbox_broadcast" (Json.str "0"))) = true
      · rw [if_pos hpe, if_pos hpe]
        cases hassets : vget r "assets" (Json.arr []) with
        | null => simp [hassets, obsResult]
        | num n => simp [hassets, obsResult]
        | str s => simp [hassets, obsResult]
        | obj mm => simp [hassets, obsResult]
        | arr assets =>
          simp only [hassets]
          exact mcxAssetLoop_obs_congr file file2 (vget r "tag_name" Json.null)
            dl h assets
      · rw [if_neg hpe, if_neg hpe]
        simp [obsResult, h, pure, Except.pure]

/-- C8: a missing local version is read as the oldest possible one and
never as an error: the defaults are build 0 and tag 0 for an absent
file, a malformed file and a mapping without the key, and every checker
behaves on an absent or malformed record exactly as it does on the
empty record, observed through the persisted store. -/
theorem c8_missing_local_defaults (k : String) (d : Json) (m : VMap)
    (file file2 : VFile) (remote : Option VMap) (dl : DlOracle) :
    vget (get_local_versions .absent) k d = d ∧
    vget (get_local_versions .malformed) k d = d ∧
    (m.find? (fun p => p.1 == k) = none → vget m k d = d) ∧
    (get_local_versions file = get_local_versions file2 →
      obsResult (check_geyser_standalone file remote dl)
        = obsResult (check_geyser_standalone file2 remote dl) ∧
      obsResult (check_geyser_connect file remote dl)
        = obsResult (check_geyser_connect file2 remote dl) ∧
      obsResult (check_mcxbox_broadcast file remote dl)
        = obsResult (check_mcxbox_broadcast file2 remote dl)) := by
  refine ⟨rfl, rfl, ?_, ?_⟩
  · intro hf
    simp [vget, hf]
  · intro h
    exact ⟨check_std_obs_congr file file2 remote dl h,
      check_connect_obs_congr file file2 remote dl h,
      check_mcx_obs_congr file file2 remote dl h⟩

/-- Witness for C8: the standalone key against an absent and a
malformed record and a mapping that only tracks the tag artifact. -/
theorem c8_witness :
    vget (get_local_versions .absent) "geyser_standalone" (Json.num 0) = Json.num 0 ∧
    vget (get_local_versions .malformed) "geyser_standalone" (Json.num 0) = Json.num 0 ∧
    vget [("mcxbox_broadcast", Json.str "v1.0")] "geyser_standalone" (Json.num 0)
      = Json.num 0 ∧
    obsResult (check_geyser_standalone .absent none (fun _ _ => ⟨false, false⟩))
      = obsResult (check_geyser_standalone .malformed none (fun _ _ => ⟨false, false⟩)) ∧
    obsResult (check_geyser_connect .absent none (fun _ _ => ⟨false, false⟩))
      = obsResult (check_geyser_connect .malformed none (fun _ _ => ⟨false, false⟩)) ∧
    obsResult (check_mcxbox_broadcast .absent none (fun _ _ => ⟨false, false⟩))
      = obsResult (check_mcxbox_broadcast .malformed none (fun _ _ => ⟨false, false⟩)) := by
  have base := c8_missing_local_defaults "geyser_standalone" (Json.num 0)
    [("mcxbox_broadcast", Json.str "v1.0")] .absent .malformed none (fun _ _ => ⟨false, false⟩)
  exact ⟨base.1, base.2.1, base.2.2.1 rfl, (base.2.2.2 rfl).1, (base.2.2.2 rfl).2.1,
    (base.2.2.2 rfl).2.2⟩

theorem eventWait_sigTime (w : World) (T : Nat) :
    (eventWait w T).sigTime = w.sigTime := by
  obtain ⟨c, p, s⟩ := w
  cases s with
  | none => rfl
  | some t =>
    simp only [eventWait]
    split
    · rfl
    · split <;> rfl

theorem eventWait_clock_le (w : World) (T t : Nat) (h : w.sigTime = some t) :
    (eventWait w T).clock ≤ max w.clock t := by
  simp only [eventWait, h]
  by_cases h1 : t ≤ w.clock
  · rw [if_pos h1]
    exact le_max_left _ _
  · rw [if_neg h1]
    by_cases h2 : t ≤ w.clock + T
    · rw [if_pos h2]
      exact le_max_right _ _
    · rw [if_neg h2]
      have h3 : w.clock + T ≤ t := by omega
      exact le_trans h3 (le_max_right _ _)

theorem shutdownSet_false_lt (w : World) (t : Nat) (h : w.sigTime = some t)
    (hs : shutdownSet w = false) : w.clock < t := by
  simp only [shutdownSet, h, decide_eq_false_iff_not, not_le] at hs
  exact hs

theorem mainLoop_clock_le (env : Nat → IterEnv) :
    ∀ (fuel : Nat) (w : World) (t : Nat), w.sigTime = some t →
      (mainLoop env fuel w).clock ≤ max w.clock t := by
  intro fuel
  induction fuel with
  | zero =>
    intro w t h
    exact le_max_left _ _
  | succ n ih =>
    intro w t h
    unfold mainLoop
    by_cases hs : shutdownSet w = true
    · rw [if_pos hs]
      exact le_max_left _ _
    · rw [if_neg hs]
      have hlt : w.clock < t := shutdownSet_false_lt w t h (Bool.eq_false_iff.mpr hs)
      have hmax : max w.clock t = t := Nat.max_eq_right (Nat.le_of_lt hlt)
      set w1 : World := if is_server_running w.proc = true then w
        else { w with proc := (start_server w.proc (env n).jar (env n).spawn).1 }
        with hw1
      have h1clock : w1.clock = w.clock := by
        rw [hw1]
        split <;> rfl
      have h1sig : w1.sigTime = some t := by
        rw [hw1]
        split
        · exact h
        · exact h
      by_cases hrun : is_server_running w1.proc = true
      · rw [if_pos hrun]
        set w2 : World := eventWait w1 900 with hw2
        have hsig2 : w2.sigTime = some t := (eventWait_sigTime w1 900).trans h1sig
        have hclk2 : w2.clock ≤ max w.clock t := by
          have h3 := eventWait_clock_le w1 900 t h1sig
          rwa [h1clock] at h3
        by_cases hs2 : shutdownSet w2 = true
        · rw [if_pos hs2]
          exact hclk2
        · rw [if_neg hs2]
          have hlt2 : w2.clock < t := shutdownSet_false_lt w2 t hsig2
            (Bool.eq_false_iff.mpr hs2)
          by_cases hup : (is_server_running w2.proc && (env n).updates) = true
          · rw [if_pos hup]
            have h6 := ih { w2 with proc := (stop_server w2.proc (env n).graceful).1 }
              t hsig2
            rw [Nat.max_eq_right (Nat.le_of_lt hlt2)] at h6
            rw [hmax]
            exact h6
          · rw [if_neg hup]
            have h6 := ih w2 t hsig2
            rw [Nat.max_eq_right (Nat.le_of_lt hlt2)] at h6
            rw [hmax]
            exact h6
      · rw [if_neg hrun]
        have hsig3 : (eventWait w1 30).sigTime = some t :=
          (eventWait_sigTime w1 30).trans h1sig
        have hclk3 : (eventWait w1 30).clock ≤ t := by
          have h3 := eventWait_clock_le w1 30 t h1sig
          rwa [h1clock, hmax] at h3
        have h6 := ih (eventWait w1 30) t hsig3
        rw [Nat.max_eq_right hclk3] at h6
        rw [hmax]
        exact h6

/-- C9: the shutdown signal is observed promptly and the child is never
left behind: when the signal arrives at time t, an iteration in its
interruptible wait returns at the signal time and the loop never
advances the clock beyond t (rather than sitting out the full
900-second wait); with the flag already set the loop exits immediately;
and after the loop exits, the unconditional final stop_server leaves
the observed process state at NoProcess. -/
theorem c9_shutdown_prompt_and_final_stop (env : Nat → IterEnv) (fuel : Nat)
    (w : World) (t : Nat) (g : Bool) (h : w.sigTime = some t) :
    (shutdownSet w = true → mainLoop env fuel w = w) ∧
    (mainLoop env fuel w).clock ≤ max w.clock t ∧
    is_server_running (runProgram env fuel w g).proc = false := by
  refine ⟨?_, mainLoop_clock_le env fuel w t h, ?_⟩
  · intro hs
    cases fuel with
    | zero => rfl
    | succ n => simp [mainLoop, hs]
  · simp only [runProgram]
    exact is_server_running_stop _ _

/-- Witness for C9: the signal arrives at time 0, before the first
iteration. -/
theorem c9_witness :
    (shutdownSet ⟨0, none, some 0⟩ = true →
      mainLoop (fun _ => ⟨false, false, .error (), true⟩) 1 ⟨0, none, some 0⟩
        = ⟨0, none, some 0⟩) ∧
    (mainLoop (fun _ => ⟨false, false, .error (), true⟩) 1 ⟨0, none, some 0⟩).clock
      ≤ max (0 : Nat) 0 ∧
    is_server_running (runProgram (fun _ => ⟨false, false, .error (), true⟩) 1
      ⟨0, none, some 0⟩ true).proc = false :=
  c9_shutdown_prompt_and_final_stop (fun _ => ⟨false, false, .error (), true⟩) 1
    ⟨0, none, some 0⟩ 0 true rfl

end GeyserStart
